import Mathlib

/-!
Shallow embedding of `src/backend/main.py` (EV Battery Management System).

The numeric domain of the Python program (floats produced by
`np.random.uniform` and Python `round`) is embedded into `ℚ`; the stream of
uniform draws produced by NumPy's global generator after `np.random.seed s`
is abstracted as a function `unif01 : ℕ → ℕ → ℚ` giving the k-th draw in
`[0,1)` for seed `s`.  The seed computation
`int(hashlib.md5(vehicle_type.encode()).hexdigest()[:8], 16) % (2**31)`
is embedded concretely, with MD5 implemented over byte lists (RFC 1321).
-/

deriving instance DecidableEq for Except

/- Batteries marks rational arithmetic `@[irreducible]`, which blocks
evaluation of the embedding on concrete inputs; restore definitional
transparency locally for this development. -/
attribute [local semireducible] Rat.mul Rat.add Rat.sub Rat.inv

set_option maxRecDepth 8000

namespace EVBMS

/-! ### UTF-8 bytes of a string (models Python `str.encode()`) -/

/-- UTF-8 encoding of a single character, as numbers in `[0, 256)`. -/
def utf8Bytes (c : Char) : List ℕ :=
  let n := c.toNat
  if n < 0x80 then [n]
  else if n < 0x800 then [0xC0 + n / 64, 0x80 + n % 64]
  else if n < 0x10000 then [0xE0 + n / 4096, 0x80 + (n / 64) % 64, 0x80 + n % 64]
  else [0xF0 + n / 262144, 0x80 + (n / 4096) % 64, 0x80 + (n / 64) % 64, 0x80 + n % 64]

/-- The UTF-8 byte sequence of a string (models `vehicle_type.encode()`). -/
def strBytes (s : String) : List ℕ :=
  (s.data.map utf8Bytes).flatten

/-! ### MD5 (RFC 1321), over byte lists, 32-bit words as `ℕ` mod `2^32` -/

def M32 : ℕ := 2 ^ 32

def add32 (a b : ℕ) : ℕ := (a + b) % M32

def not32 (a : ℕ) : ℕ := (M32 - 1) - a % M32

/-- Left-rotation of a 32-bit word. -/
def rotl32 (x n : ℕ) : ℕ :=
  ((x % M32) * 2 ^ n) % M32 + (x % M32) / 2 ^ (32 - n)

/-- The MD5 per-step additive constants `K[0..63]`. -/
def md5K : List ℕ :=
  [0xd76aa478, 0xe8c7b756, 0x242070db, 0xc1bdceee,
   0xf57c0faf, 0x4787c62a, 0xa8304613, 0xfd469501,
   0x698098d8, 0x8b44f7af, 0xffff5bb1, 0x895cd7be,
   0x6b901122, 0xfd987193, 0xa679438e, 0x49b40821,
   0xf61e2562, 0xc040b340, 0x265e5a51, 0xe9b6c7aa,
   0xd62f105d, 0x02441453, 0xd8a1e681, 0xe7d3fbc8,
   0x21e1cde6, 0xc33707d6, 0xf4d50d87, 0x455a14ed,
   0xa9e3e905, 0xfcefa3f8, 0x676f02d9, 0x8d2a4c8a,
   0xfffa3942, 0x8771f681, 0x6d9d6122, 0xfde5380c,
   0xa4beea44, 0x4bdecfa9, 0xf6bb4b60, 0xbebfbc70,
   0x289b7ec6, 0xeaa127fa, 0xd4ef3085, 0x04881d05,
   0xd9d4d039, 0xe6db99e5, 0x1fa27cf8, 0xc4ac5665,
   0xf4292244, 0x432aff97, 0xab9423a7, 0xfc93a039,
   0x655b59c3, 0x8f0ccc92, 0xffeff47d, 0x85845dd1,
   0x6fa87e4f, 0xfe2ce6e0, 0xa3014314, 0x4e0811a1,
   0xf7537e82, 0xbd3af235, 0x2ad7d2bb, 0xeb86d391]

/-- The MD5 per-step left-rotation amounts `s[0..63]`. -/
def md5S : List ℕ :=
  [7, 12, 17, 22, 7, 12, 17, 22, 7, 12, 17, 22, 7, 12, 17, 22,
   5, 9, 14, 20, 5, 9, 14, 20, 5, 9, 14, 20, 5, 9, 14, 20,
   4, 11, 16, 23, 4, 11, 16, 23, 4, 11, 16, 23, 4, 11, 16, 23,
   6, 10, 15, 21, 6, 10, 15, 21, 6, 10, 15, 21, 6, 10, 15, 21]

/-- MD5 padding: append `0x80`, zero bytes to 56 mod 64, then the bit length
as 8 little-endian bytes. -/
def md5Pad (msg : List ℕ) : List ℕ :=
  let L := msg.length
  let padLen := (55 + 64 - L % 64) % 64 + 1
  let bitLen := (8 * L) % 2 ^ 64
  msg ++ (0x80 :: List.replicate (padLen - 1) 0) ++
    (List.range 8).map (fun i => bitLen / 2 ^ (8 * i) % 256)

/-- Split a byte list into chunks of 64 bytes (structural recursion on a
fuel bound so that the definition reduces). -/
def chunksAux : ℕ → List ℕ → List (List ℕ)
  | 0, _ => []
  | _, [] => []
  | n + 1, b :: rest => ((b :: rest).take 64) :: chunksAux n ((b :: rest).drop 64)

/-- Split a byte list into chunks of 64 bytes. -/
def chunks64 (l : List ℕ) : List (List ℕ) := chunksAux l.length l

/-- Decode 64 bytes into 16 little-endian 32-bit words. -/
def leWords (block : List ℕ) : List ℕ :=
  (List.range 16).map (fun j =>
    block.getD (4 * j) 0 + block.getD (4 * j + 1) 0 * 2 ^ 8 +
    block.getD (4 * j + 2) 0 * 2 ^ 16 + block.getD (4 * j + 3) 0 * 2 ^ 24)

/-- One MD5 step.  The four 32-bit state words `(A, B, C, D)` are packed
into one natural number `st = A + B·2^32 + C·2^64 + D·2^96` (this keeps
kernel evaluation shallow).  `i` is the step index, `m` the 16 message
words of the current block. -/
def md5Step (m : List ℕ) (i st : ℕ) : ℕ :=
  let a := st % M32
  let b := st / M32 % M32
  let c := st / M32 ^ 2 % M32
  let d := st / M32 ^ 3 % M32
  let fg : ℕ × ℕ :=
    if i < 16 then ((b &&& c) ||| (not32 b &&& d), i)
    else if i < 32 then ((d &&& b) ||| (not32 d &&& c), (5 * i + 1) % 16)
    else if i < 48 then (b ^^^ c ^^^ d, (3 * i + 5) % 16)
    else (c ^^^ (b ||| not32 d), (7 * i) % 16)
  let f := add32 (add32 (add32 fg.1 a) (md5K.getD i 0)) (m.getD fg.2 0)
  d + add32 b (rotl32 f (md5S.getD i 0)) * M32 + b * M32 ^ 2 + c * M32 ^ 3

/-- Apply the first `n` MD5 steps to the packed state `st`. -/
def md5Loop (m : List ℕ) (st : ℕ) : ℕ → ℕ
  | 0 => st
  | n + 1 => md5Step m n (md5Loop m st n)

/-- Process one 64-byte block, updating the packed running state. -/
def md5Block (st : ℕ) (block : List ℕ) : ℕ :=
  let r := md5Loop (leWords block) st 64
  add32 (st % M32) (r % M32) +
    add32 (st / M32 % M32) (r / M32 % M32) * M32 +
    add32 (st / M32 ^ 2 % M32) (r / M32 ^ 2 % M32) * M32 ^ 2 +
    add32 (st / M32 ^ 3 % M32) (r / M32 ^ 3 % M32) * M32 ^ 3

/-- The packed MD5 initial state `A0 + B0·2^32 + C0·2^64 + D0·2^96`. -/
def md5Init : ℕ :=
  0x67452301 + 0xefcdab89 * M32 + 0x98badcfe * M32 ^ 2 + 0x10325476 * M32 ^ 3

/-- MD5 of a byte list, as the packed final state.  The 16 digest bytes are
the little-endian bytes of this 128-bit number (each state word is
serialized little-endian, `A` first). -/
def md5Digest (msg : List ℕ) : ℕ :=
  (chunks64 (md5Pad msg)).foldl md5Block md5Init

/-- `int(hashlib.md5(v.encode()).hexdigest()[:8], 16)`: the first eight hex
characters of the digest are its first four bytes, read big-endian. -/
def md5Head8 (v : String) : ℕ :=
  let st := md5Digest (strBytes v)
  st % 2 ^ 8 * 2 ^ 24 + st / 2 ^ 8 % 2 ^ 8 * 2 ^ 16 +
    st / 2 ^ 16 % 2 ^ 8 * 2 ^ 8 + st / 2 ^ 24 % 2 ^ 8

/-- The RNG seed `predict` derives from the verbatim vehicle-type string:
`int(hashlib.md5(vehicle_type.encode()).hexdigest()[:8], 16) % (2**31)`. -/
def seedOf (v : String) : ℕ := md5Head8 v % 2 ^ 31

/-! ### String helpers (models of Python `str` methods) -/

/-- `charsBeginWith p l` is true when `p` is an initial segment of `l`. -/
def charsBeginWith : List Char → List Char → Bool
  | [], _ => true
  | _ :: _, [] => false
  | p :: ps, c :: cs => p == c && charsBeginWith ps cs

/-- `hasSubChars p l` is true when `p` occurs contiguously inside `l`. -/
def hasSubChars (p : List Char) : List Char → Bool
  | [] => p.isEmpty
  | c :: cs => charsBeginWith p (c :: cs) || hasSubChars p cs

/-- Models Python's `p in s` on strings (substring containment). -/
def strHasSub (p s : String) : Bool := hasSubChars p.data s.data

/-- Models Python's `s.startswith(p)`. -/
def strBegins (p s : String) : Bool := charsBeginWith p.data s.data

/-- Models Python's `s.endswith(p)`. -/
def strEnds (p s : String) : Bool :=
  charsBeginWith p.data.reverse s.data.reverse

/-- Models Python's `s.lower()` (ASCII case mapping, which is all the
program's inputs and feature names exercise). -/
def lowerStr (s : String) : String := String.mk (s.data.map Char.toLower)

/-- Models Python's `s.title()` for ASCII text: uppercase each character
that starts an alphabetic run, lowercase the rest of the run. -/
def titleChars : Bool → List Char → List Char
  | _, [] => []
  | prevAlpha, c :: cs =>
    let al := c.isAlpha
    (if al && !prevAlpha then c.toUpper else if al then c.toLower else c) ::
      titleChars al cs

/-- Models Python's `s.title()`. -/
def titleStr (s : String) : String := String.mk (titleChars false s.data)

/-! ### The prediction endpoint (`predict`, `main.py` lines 226–311)

Numbers are embedded into `ℚ`.  The stream of uniform `[0,1)` draws that
NumPy's global generator yields after `np.random.seed s` is abstracted as
`unif01 : ℕ → ℕ → ℚ` (seed, then draw index); `np.random.uniform(lo, hi)`
is `lo + (hi - lo) * u` on the next draw.  Python's `round(x, 4)` is
embedded as `round4`, rounding the scaled value to the nearest integer
with ties to even (Python's rounding rule), exactly over `ℚ`.
The chart-file uuid and the success/failure of the matplotlib/file-system
steps of `create_optimized_chart` are inputs of the embedding. -/

/-- Floor of a rational as an integer (`num.fdiv den`, exact since the
denominator is positive). -/
def ratFloor (q : ℚ) : ℤ := q.num.fdiv q.den

/-- Round a rational to the nearest integer, ties to even (the rule of
Python's built-in `round`). -/
def pyRound (x : ℚ) : ℤ :=
  let n := ratFloor x
  let frac := x - (n : ℚ)
  if frac < 1 / 2 then n
  else if 1 / 2 < frac then n + 1
  else if n % 2 = 0 then n else n + 1

/-- `round(x, 4)`. -/
def round4 (q : ℚ) : ℚ := ((pyRound (q * 10000) : ℤ) : ℚ) / 10000

/-- State of NumPy's global RNG: the active seed and the number of draws
already consumed since seeding. -/
structure RngState where
  seed : ℕ
  pos : ℕ
deriving DecidableEq

/-- `np.random.uniform(lo, hi)`: consume one draw from the stream. -/
def uniform (unif01 : ℕ → ℕ → ℚ) (σ : RngState) (lo hi : ℚ) : ℚ × RngState :=
  (lo + (hi - lo) * unif01 σ.seed σ.pos, ⟨σ.seed, σ.pos + 1⟩)

/-- One row of `table_data` (`main.py` lines 280–285). -/
structure Row where
  parameter : String
  original : ℚ
  predicted : ℚ
  difference : ℚ
deriving DecidableEq

/-- The fixed feature-name list (`main.py` lines 248–252). -/
def numeric_features : List String :=
  ["SOC (%)", "Voltage (V)", "Current (A)", "Battery Temp (°C)",
   "Ambient Temp (°C)", "Charging Duration (min)",
   "Degradation Rate (%)", "Efficiency (%)", "Charging Cycles"]

/-- The per-feature value range (`main.py` lines 261–273). -/
def baseRange (feature : String) : ℚ × ℚ :=
  let f := lowerStr feature
  if strHasSub "temp" f then (20, 45)
  else if strHasSub "soc" f || strHasSub "efficiency" f then (70, 95)
  else if strHasSub "voltage" f then (350, 400)
  else if strHasSub "current" f then (10, 50)
  else if strHasSub "cycle" f then (500, 2000)
  else (10, 100)

/-- One iteration of the row-generation loop (`main.py` lines 260–285):
draw `original_val`, draw the variation factor, build the row. -/
def mkRow (unif01 : ℕ → ℕ → ℚ) (σ : RngState) (feature : String) :
    Row × RngState :=
  let r := baseRange feature
  let u1 := uniform unif01 σ r.1 r.2
  let original_val := round4 u1.1
  let u2 := uniform unif01 u1.2 (-(1 / 10)) (1 / 10)
  let variation := u2.1 * original_val
  let predicted_val := round4 (original_val + variation)
  let difference_val := round4 (predicted_val - original_val)
  ({ parameter := feature, original := original_val,
     predicted := predicted_val, difference := difference_val }, u2.2)

/-- The row-generation loop over the feature list, threading the RNG. -/
def genRows (unif01 : ℕ → ℕ → ℚ) :
    List String → RngState → List Row × RngState
  | [], σ => ([], σ)
  | f :: fs, σ =>
    let p := mkRow unif01 σ f
    let rest := genRows unif01 fs p.2
    (p.1 :: rest.1, rest.2)

/-- The chart renderer (`create_optimized_chart`, lines 313–358).  Its
`try` block draws the figure and saves it as
`static/chart_<uuid4().hex[:8]>.png`; `uuidHex = some u` models that block
succeeding with uuid prefix `u`, `none` models any step of it raising.
The function itself never raises: on failure it returns the placeholder. -/
def create_optimized_chart (uuidHex : Option String) : String :=
  match uuidHex with
  | some u => "/static/" ++ ("chart_" ++ u ++ ".png")
  | none => "/static/placeholder.png"

/-- `valid_types` (`main.py` line 240). -/
def valid_types : List String := ["car", "bike", "scooter", "bus"]

/-- The `HTTPException(status_code=400, detail=...)` raised on invalid
input; its detail string is
`f"Invalid vehicle type. Must be one of: {valid_types}"`, embedded
structurally as the interpolated list. -/
structure HTTPError where
  status_code : ℕ
  detail_valid_types : List String
deriving DecidableEq

/-- The JSON success body of `predict` (lines 296–304); the telemetry
fields `response_time_ms` and `request_id` are wall-clock/counter
values and are not modeled. -/
structure Response where
  status : String
  vehicle_type : String
  ev_model : String
  chart_url : String
  table_data : List Row
deriving DecidableEq

/-- The observable outcome of one `predict` call: the HTTP result, the
NumPy global RNG state after the call, and whether chart rendering was
reached. -/
structure PredictOut where
  result : Except HTTPError Response
  state : RngState
  chartRendered : Bool

/-- The `predict` endpoint (`main.py` lines 226–311) for one request.
`σ` is the NumPy global RNG state when the request arrives; a valid
request overwrites it via `np.random.seed(seed)` (line 257) where
`seed` is `seedOf vehicle_type` (line 256), an invalid request leaves it
untouched and raises the 400 before any computation. -/
def predict (unif01 : ℕ → ℕ → ℚ) (uuidHex : Option String)
    (vehicle_type : String) (σ : RngState) : PredictOut :=
  if lowerStr vehicle_type ∈ valid_types then
    let σ0 : RngState := ⟨seedOf vehicle_type, 0⟩
    let g := genRows unif01 numeric_features σ0
    let chart_url := create_optimized_chart uuidHex
    { result := Except.ok
        { status := "success",
          vehicle_type := vehicle_type,
          ev_model := "Optimized " ++ titleStr vehicle_type ++ " Model",
          chart_url := chart_url,
          table_data := g.1 },
      state := g.2,
      chartRendered := true }
  else
    { result := Except.error ⟨400, valid_types⟩,
      state := σ,
      chartRendered := false }

/-! ### Cleanup and health check (`main.py` lines 125–151, 169–188) -/

/-- A file in the `static` directory as the cleanup sweep sees it:
name, creation time (`os.path.getctime`), and whether the filesystem
operations touching this file (`getctime`/`os.remove`) raise an
`OSError` — the fault model for the `except` branch. -/
structure FileInfo where
  name : String
  ctime : ℚ
  fsFail : Bool
deriving DecidableEq

/-- The name test of the sweep (line 136):
`filename.startswith("chart_") and filename.endswith(".png")`. -/
def isChartFile (name : String) : Bool :=
  strBegins "chart_" name && strEnds ".png" name

/-- The `for filename in os.listdir(static_dir)` loop (lines 135–143):
returns the directory contents after the loop and whether an exception
aborted it.  A matching file whose filesystem operation raises stops the
loop with itself and all later entries untouched; a matching file older
than 1800 seconds is removed; everything else is left in place. -/
def sweep (t : ℚ) : List FileInfo → List FileInfo × Bool
  | [] => ([], false)
  | f :: rest =>
    if isChartFile f.name then
      if f.fsFail then (f :: rest, true)
      else if t - f.ctime > 1800 then sweep t rest
      else
        let p := sweep t rest
        (f :: p.1, p.2)
    else
      let p := sweep t rest
      (f :: p.1, p.2)

/-- The mutable state `cleanup_resources` touches: the module global
`last_cleanup` and the `static` directory contents. -/
structure CleanupState where
  last_cleanup : ℚ
  files : List FileInfo
deriving DecidableEq

/-- `cleanup_resources` (lines 125–151) called at time `t`.  The sweep
runs only when `t - last_cleanup > 600`; `last_cleanup := t` happens
after the loop inside the `try`, so an exception leaves it unchanged
(the `except` branch only logs).  The function always returns normally. -/
def cleanup_resources (t : ℚ) (s : CleanupState) : CleanupState :=
  if t - s.last_cleanup > 600 then
    let p := sweep t s.files
    if p.2 then { last_cleanup := s.last_cleanup, files := p.1 }
    else { last_cleanup := t, files := p.1 }
  else s

/-- The body of the `/health` response that the claims mention; the
memory/uptime numbers are wall-clock telemetry and are not modeled. -/
structure HealthResponse where
  status : String
  health_checks : ℕ
deriving DecidableEq

/-- `health_check` (lines 169–188): increments the counter, triggers
`cleanup_resources`, and returns `"status": "healthy"`. -/
def health_check (t : ℚ) (hc : ℕ) (s : CleanupState) :
    HealthResponse × CleanupState :=
  ({ status := "healthy", health_checks := hc + 1 }, cleanup_resources t s)

/-! ### Concrete evaluation helpers for the witnesses -/

/-- The all-zeros draw stream (a concrete instance of the RNG
abstraction). -/
def unifZero : ℕ → ℕ → ℚ := fun _ _ => 0

/-- The response `predict` produces for `"car"` under the all-zeros draw
stream with a failed chart render (each `original` is its range minimum,
each `predicted` is `0.9` of it). -/
def respCar0 : Response :=
  { status := "success", vehicle_type := "car",
    ev_model := "Optimized Car Model",
    chart_url := "/static/placeholder.png",
    table_data :=
      [⟨"SOC (%)", 70, 63, -7⟩, ⟨"Voltage (V)", 350, 315, -35⟩,
       ⟨"Current (A)", 10, 9, -1⟩, ⟨"Battery Temp (°C)", 20, 18, -2⟩,
       ⟨"Ambient Temp (°C)", 20, 18, -2⟩,
       ⟨"Charging Duration (min)", 10, 9, -1⟩,
       ⟨"Degradation Rate (%)", 10, 9, -1⟩, ⟨"Efficiency (%)", 70, 63, -7⟩,
       ⟨"Charging Cycles", 500, 450, -50⟩] }

end EVBMS

namespace EVBMS

/-! ### Helper lemmas -/

/-- Every row the generation loop emits has
`difference = round4 (predicted - original)` by construction. -/
lemma genRows_difference (unif01 : ℕ → ℕ → ℚ) :
    ∀ (fs : List String) (σ : RngState), ∀ row ∈ (genRows unif01 fs σ).1,
      row.difference = round4 (row.predicted - row.original) := by
  intro fs
  induction fs with
  | nil => intro σ row hrow; simp [genRows] at hrow
  | cons f fs ih =>
    intro σ row hrow
    simp only [genRows, List.mem_cons] at hrow
    rcases hrow with h | h
    · subst h; rfl
    · exact ih _ row h

/-- The generation loop emits one row per feature, carrying the feature
name in order. -/
lemma genRows_params (unif01 : ℕ → ℕ → ℚ) :
    ∀ (fs : List String) (σ : RngState),
      (genRows unif01 fs σ).1.map Row.parameter = fs := by
  intro fs
  induction fs with
  | nil => intro σ; rfl
  | cons f fs ih => intro σ; simp only [genRows, List.map_cons, ih]; rfl

/-- Unfolding `predict` on a valid vehicle type. -/
lemma predict_valid (unif01 : ℕ → ℕ → ℚ) (uuidHex : Option String)
    (v : String) (σ : RngState) (hv : lowerStr v ∈ valid_types) :
    predict unif01 uuidHex v σ =
      { result := Except.ok
          { status := "success", vehicle_type := v,
            ev_model := "Optimized " ++ titleStr v ++ " Model",
            chart_url := create_optimized_chart uuidHex,
            table_data := (genRows unif01 numeric_features ⟨seedOf v, 0⟩).1 },
        state := (genRows unif01 numeric_features ⟨seedOf v, 0⟩).2,
        chartRendered := true } := by
  unfold predict
  rw [if_pos hv]

/-- Unfolding `predict` on an invalid vehicle type. -/
lemma predict_invalid (unif01 : ℕ → ℕ → ℚ) (uuidHex : Option String)
    (v : String) (σ : RngState) (hv : lowerStr v ∉ valid_types) :
    predict unif01 uuidHex v σ =
      { result := Except.error ⟨400, valid_types⟩, state := σ,
        chartRendered := false } := by
  unfold predict
  rw [if_neg hv]

/-- A successful `predict` call's response is the one `predict_valid`
exhibits. -/
lemma predict_ok_elim (unif01 : ℕ → ℕ → ℚ) (uuidHex : Option String)
    (v : String) (σ : RngState) (resp : Response)
    (hok : (predict unif01 uuidHex v σ).result = Except.ok resp) :
    resp = { status := "success", vehicle_type := v,
             ev_model := "Optimized " ++ titleStr v ++ " Model",
             chart_url := create_optimized_chart uuidHex,
             table_data :=
               (genRows unif01 numeric_features ⟨seedOf v, 0⟩).1 } := by
  by_cases hv : lowerStr v ∈ valid_types
  · rw [predict_valid unif01 uuidHex v σ hv] at hok
    exact (Except.ok.inj hok).symm
  · rw [predict_invalid unif01 uuidHex v σ hv] at hok
    exact absurd hok (by simp)

/-! ### The claims -/

/-- C1: for every valid vehicle type, every row of the returned
`table_data` satisfies `difference == round(predicted - original, 4)` —
the `difference` field is the rounded subtraction of that row's
`predicted` and `original` fields by construction. -/
theorem c1_difference_by_construction (unif01 : ℕ → ℕ → ℚ)
    (uuidHex : Option String) (v : String) (σ : RngState) (resp : Response)
    (hok : (predict unif01 uuidHex v σ).result = Except.ok resp) :
    ∀ row ∈ resp.table_data,
      row.difference = round4 (row.predicted - row.original) := by
  rw [predict_ok_elim unif01 uuidHex v σ resp hok]
  exact genRows_difference unif01 numeric_features ⟨seedOf v, 0⟩

/-- C1 witness: the theorem applied at the concrete request
`predict unifZero none "car"`. -/
theorem c1_difference_by_construction_witness :
    (predict unifZero none "car" ⟨0, 0⟩).result = Except.ok respCar0 ∧
      ∀ row ∈ respCar0.table_data,
        row.difference = round4 (row.predicted - row.original) :=
  ⟨by decide,
   c1_difference_by_construction unifZero none "car" ⟨0, 0⟩ respCar0
     (by decide)⟩

/-- C2: for every valid vehicle type, the `parameter` names of the
returned `table_data` are exactly the fixed nine-element feature-name
list, in order, so `table_data` always has length 9. -/
theorem c2_parameter_names_fixed (unif01 : ℕ → ℕ → ℚ)
    (uuidHex : Option String) (v : String) (σ : RngState) (resp : Response)
    (hok : (predict unif01 uuidHex v σ).result = Except.ok resp) :
    resp.table_data.map Row.parameter = numeric_features ∧
      numeric_features =
        ["SOC (%)", "Voltage (V)", "Current (A)", "Battery Temp (°C)",
         "Ambient Temp (°C)", "Charging Duration (min)",
         "Degradation Rate (%)", "Efficiency (%)", "Charging Cycles"] ∧
      resp.table_data.length = 9 := by
  rw [predict_ok_elim unif01 uuidHex v σ resp hok]
  refine ⟨genRows_params unif01 numeric_features ⟨seedOf v, 0⟩, rfl, ?_⟩
  have h := congrArg List.length
    (genRows_params unif01 numeric_features ⟨seedOf v, 0⟩)
  simpa using h

/-- C2 witness: the theorem applied at the concrete request
`predict unifZero none "car"`. -/
theorem c2_parameter_names_fixed_witness :
    (predict unifZero none "car" ⟨0, 0⟩).result = Except.ok respCar0 ∧
      (respCar0.table_data.map Row.parameter = numeric_features ∧
        numeric_features =
          ["SOC (%)", "Voltage (V)", "Current (A)", "Battery Temp (°C)",
           "Ambient Temp (°C)", "Charging Duration (min)",
           "Degradation Rate (%)", "Efficiency (%)", "Charging Cycles"] ∧
        respCar0.table_data.length = 9) :=
  ⟨by decide,
   c2_parameter_names_fixed unifZero none "car" ⟨0, 0⟩ respCar0 (by decide)⟩

/-- C3: every input whose lowercase form is not in
`{car, bike, scooter, bus}` makes `predict` fail with HTTP 400 whose
detail lists exactly the four valid vehicle types; the RNG state is
untouched and no chart rendering happens. -/
theorem c3_invalid_vehicle_rejected (unif01 : ℕ → ℕ → ℚ)
    (uuidHex : Option String) (v : String) (σ : RngState)
    (h : lowerStr v ∉ valid_types) :
    predict unif01 uuidHex v σ =
        { result := Except.error ⟨400, valid_types⟩, state := σ,
          chartRendered := false } ∧
      valid_types = ["car", "bike", "scooter", "bus"] :=
  ⟨predict_invalid unif01 uuidHex v σ h, rfl⟩

/-- C3 witness: the theorem applied at the concrete invalid input
`"airplane"`. -/
theorem c3_invalid_vehicle_rejected_witness :
    lowerStr "airplane" ∉ valid_types ∧
      (predict unifZero none "airplane" ⟨3, 7⟩ =
          { result := Except.error ⟨400, valid_types⟩, state := ⟨3, 7⟩,
            chartRendered := false } ∧
        valid_types = ["car", "bike", "scooter", "bus"]) :=
  ⟨by decide,
   c3_invalid_vehicle_rejected unifZero none "airplane" ⟨3, 7⟩ (by decide)⟩

/-- C4: within one process lifetime, two calls to `predict` with the same
vehicle-type string produce identical tables (in particular identical
`original` values), whatever the RNG state each call finds — the seed is
recomputed from the string alone and overwrites that state. -/
theorem c4_same_vehicle_same_originals (unif01 : ℕ → ℕ → ℚ)
    (uuid1 uuid2 : Option String) (v : String) (σ1 σ2 : RngState)
    (resp1 resp2 : Response)
    (h1 : (predict unif01 uuid1 v σ1).result = Except.ok resp1)
    (h2 : (predict unif01 uuid2 v σ2).result = Except.ok resp2) :
    resp1.table_data.map Row.original = resp2.table_data.map Row.original ∧
      resp1.table_data = resp2.table_data := by
  have e1 := predict_ok_elim unif01 uuid1 v σ1 resp1 h1
  have e2 := predict_ok_elim unif01 uuid2 v σ2 resp2 h2
  subst e1; subst e2
  exact ⟨rfl, rfl⟩

/-- C4 witness: the theorem applied to two `"car"` calls arriving at
different RNG states. -/
theorem c4_same_vehicle_same_originals_witness :
    ((predict unifZero none "car" ⟨0, 0⟩).result = Except.ok respCar0 ∧
        (predict unifZero none "car" ⟨99, 42⟩).result = Except.ok respCar0) ∧
      (respCar0.table_data.map Row.original =
          respCar0.table_data.map Row.original ∧
        respCar0.table_data = respCar0.table_data) :=
  ⟨⟨by decide, by decide⟩,
   c4_same_vehicle_same_originals unifZero none none "car" ⟨0, 0⟩ ⟨99, 42⟩
     respCar0 respCar0 (by decide) (by decide)⟩

/-- C5: the chart renderer returns the placeholder reference on failure
instead of raising, and `predict` still returns the success response with
that placeholder `chart_url` and the full table. -/
theorem c5_chart_failure_placeholder (unif01 : ℕ → ℕ → ℚ) (v : String)
    (σ : RngState) (hv : lowerStr v ∈ valid_types) :
    create_optimized_chart none = "/static/placeholder.png" ∧
      ∃ resp : Response,
        (predict unif01 none v σ).result = Except.ok resp ∧
          resp.status = "success" ∧
          resp.chart_url = "/static/placeholder.png" ∧
          resp.table_data =
            (genRows unif01 numeric_features ⟨seedOf v, 0⟩).1 := by
  refine ⟨rfl,
    { status := "success", vehicle_type := v,
      ev_model := "Optimized " ++ titleStr v ++ " Model",
      chart_url := create_optimized_chart none,
      table_data := (genRows unif01 numeric_features ⟨seedOf v, 0⟩).1 },
    ?_, rfl, rfl, rfl⟩
  exact congrArg PredictOut.result (predict_valid unif01 none v σ hv)

/-- C5 witness: the theorem applied at the concrete request
`predict unifZero none "car"` (the chart attempt failed). -/
theorem c5_chart_failure_placeholder_witness :
    lowerStr "car" ∈ valid_types ∧
      (create_optimized_chart none = "/static/placeholder.png" ∧
        ∃ resp : Response,
          (predict unifZero none "car" ⟨0, 0⟩).result = Except.ok resp ∧
            resp.status = "success" ∧
            resp.chart_url = "/static/placeholder.png" ∧
            resp.table_data =
              (genRows unifZero numeric_features ⟨seedOf "car", 0⟩).1) :=
  ⟨by decide, c5_chart_failure_placeholder unifZero "car" ⟨0, 0⟩ (by decide)⟩

end EVBMS

namespace EVBMS

/-- The perturbation of a generated row is bounded by a tenth of the
(already rounded) `original` value whenever the draws stay in `[0,1)`. -/
lemma mkRow_bounded (unif01 : ℕ → ℕ → ℚ)
    (hu : ∀ s k, 0 ≤ unif01 s k ∧ unif01 s k < 1) (σ : RngState)
    (f : String) :
    ∃ q : ℚ, |q| ≤ |(mkRow unif01 σ f).1.original| / 10 ∧
      (mkRow unif01 σ f).1.predicted =
        round4 ((mkRow unif01 σ f).1.original + q) := by
  obtain ⟨h0, h1⟩ := hu σ.seed (σ.pos + 1)
  refine ⟨(-(1 / 10) + (1 / 10 - -(1 / 10)) * unif01 σ.seed (σ.pos + 1)) *
    (mkRow unif01 σ f).1.original, ?_, rfl⟩
  have hc : |(-(1 / 10) + (1 / 10 - -(1 / 10)) *
      unif01 σ.seed (σ.pos + 1) : ℚ)| ≤ 1 / 10 :=
    abs_le.mpr ⟨by linarith, by linarith⟩
  calc |(-(1 / 10) + (1 / 10 - -(1 / 10)) * unif01 σ.seed (σ.pos + 1)) *
      (mkRow unif01 σ f).1.original|
      = |(-(1 / 10) + (1 / 10 - -(1 / 10)) * unif01 σ.seed (σ.pos + 1) : ℚ)| *
        |(mkRow unif01 σ f).1.original| := abs_mul _ _
    _ ≤ 1 / 10 * |(mkRow unif01 σ f).1.original| :=
        mul_le_mul_of_nonneg_right hc (abs_nonneg _)
    _ = |(mkRow unif01 σ f).1.original| / 10 := by ring

/-- Every generated row's `predicted` is a `≤ 10%` perturbation of its
`original`, rounded. -/
lemma genRows_bounded (unif01 : ℕ → ℕ → ℚ)
    (hu : ∀ s k, 0 ≤ unif01 s k ∧ unif01 s k < 1) :
    ∀ (fs : List String) (σ : RngState), ∀ row ∈ (genRows unif01 fs σ).1,
      ∃ q : ℚ, |q| ≤ |row.original| / 10 ∧
        row.predicted = round4 (row.original + q) := by
  intro fs
  induction fs with
  | nil => intro σ row hrow; simp [genRows] at hrow
  | cons f fs ih =>
    intro σ row hrow
    simp only [genRows, List.mem_cons] at hrow
    rcases hrow with h | h
    · subst h; exact mkRow_bounded unif01 hu σ f
    · exact ih _ row h

/-- C9: for every valid vehicle type and row, `predicted` is `original`
perturbed by a bounded variation of at most `±10%` of the original value
(before the final 4-decimal rounding), and the whole table is a function
of the vehicle type's seed alone (deterministic within a process run). -/
theorem c9_bounded_variation (unif01 : ℕ → ℕ → ℚ)
    (hu : ∀ s k, 0 ≤ unif01 s k ∧ unif01 s k < 1) (uuidHex : Option String)
    (v : String) (σ : RngState) (resp : Response)
    (hok : (predict unif01 uuidHex v σ).result = Except.ok resp) :
    (∀ row ∈ resp.table_data, ∃ q : ℚ, |q| ≤ |row.original| / 10 ∧
        row.predicted = round4 (row.original + q)) ∧
      resp.table_data = (genRows unif01 numeric_features ⟨seedOf v, 0⟩).1 := by
  have e := predict_ok_elim unif01 uuidHex v σ resp hok
  subst e
  exact ⟨genRows_bounded unif01 hu numeric_features ⟨seedOf v, 0⟩, rfl⟩

/-- C9 witness: the theorem applied at the concrete request
`predict unifZero none "car"`. -/
theorem c9_bounded_variation_witness :
    (∀ s k, 0 ≤ unifZero s k ∧ unifZero s k < 1) ∧
      (predict unifZero none "car" ⟨0, 0⟩).result = Except.ok respCar0 ∧
      ((∀ row ∈ respCar0.table_data, ∃ q : ℚ, |q| ≤ |row.original| / 10 ∧
          row.predicted = round4 (row.original + q)) ∧
        respCar0.table_data =
          (genRows unifZero numeric_features ⟨seedOf "car", 0⟩).1) :=
  ⟨fun _ _ => ⟨le_refl 0, by norm_num [unifZero]⟩, by decide,
   c9_bounded_variation unifZero (fun _ _ => ⟨le_refl 0, by norm_num [unifZero]⟩) none
     "car" ⟨0, 0⟩ respCar0 (by decide)⟩

/-- C10: validation is case-insensitive but seeding is case-sensitive —
every casing whose lowercase form is a valid type is accepted, with its
table seeded from the verbatim string; `"Car"` and `"car"` hash to
different seeds, and there is a draw stream under which the two casings
produce different `original` values. -/
theorem c10_case_sensitivity_of_seed (v : String) (unif01 : ℕ → ℕ → ℚ)
    (uuidHex : Option String) (σ : RngState)
    (hv : lowerStr v ∈ valid_types) :
    (∃ resp, (predict unif01 uuidHex v σ).result = Except.ok resp ∧
        resp.table_data =
          (genRows unif01 numeric_features ⟨seedOf v, 0⟩).1) ∧
      seedOf "Car" ≠ seedOf "car" ∧
      (∃ u : ℕ → ℕ → ℚ, ∀ r1 r2 : Response,
        (predict u none "Car" ⟨0, 0⟩).result = Except.ok r1 →
        (predict u none "car" ⟨0, 0⟩).result = Except.ok r2 →
        r1.table_data.map Row.original ≠ r2.table_data.map Row.original) := by
  refine ⟨⟨_, congrArg PredictOut.result
      (predict_valid unif01 uuidHex v σ hv), rfl⟩, by decide, ?_⟩
  refine ⟨fun s _ => if s = 1771609525 then 0 else (1 / 2 : ℚ), ?_⟩
  intro r1 r2 h1 h2
  have e1 := predict_ok_elim _ _ _ _ _ h1
  have e2 := predict_ok_elim _ _ _ _ _ h2
  subst e1; subst e2
  have sC : seedOf "Car" = 1771609525 := by decide
  have sc : seedOf "car" = 1725523202 := by decide
  simp only [sC, sc]
  decide

/-- C10 witness: the theorem applied at the concrete accepted casing
`"CAR"`. -/
theorem c10_case_sensitivity_of_seed_witness :
    lowerStr "CAR" ∈ valid_types ∧
      ((∃ resp, (predict unifZero none "CAR" ⟨0, 0⟩).result = Except.ok resp ∧
          resp.table_data =
            (genRows unifZero numeric_features ⟨seedOf "CAR", 0⟩).1) ∧
        seedOf "Car" ≠ seedOf "car" ∧
        (∃ u : ℕ → ℕ → ℚ, ∀ r1 r2 : Response,
          (predict u none "Car" ⟨0, 0⟩).result = Except.ok r1 →
          (predict u none "car" ⟨0, 0⟩).result = Except.ok r2 →
          r1.table_data.map Row.original ≠ r2.table_data.map Row.original)) :=
  ⟨by decide,
   c10_case_sensitivity_of_seed "CAR" unifZero none ⟨0, 0⟩ (by decide)⟩

end EVBMS

namespace EVBMS

/-- When no filesystem operation fails, the sweep deletes exactly the
`chart_*.png` files older than 1800 seconds and reports no exception. -/
lemma sweep_eq_filter (t : ℚ) :
    ∀ files : List FileInfo, (∀ f ∈ files, f.fsFail = false) →
      sweep t files =
        (files.filter
          (fun f => !(isChartFile f.name && decide (t - f.ctime > 1800))),
         false) := by
  intro files
  induction files with
  | nil => intro _; rfl
  | cons f rest ih =>
    intro h
    have hf : f.fsFail = false := h f (List.mem_cons_self f rest)
    have hrest := ih (fun g hg => h g (List.mem_cons_of_mem f hg))
    by_cases hc : isChartFile f.name
    · by_cases hold : t - f.ctime > 1800
      · simp [sweep, hc, hf, hold, hrest, List.filter]
      · simp [sweep, hc, hf, hold, hrest, List.filter]
    · simp [sweep, hc, hrest, List.filter]

/-- C6: a cleanup sweep that executes (gate open, no filesystem error)
deletes exactly the files named `chart_*.png` whose age exceeds 1800
seconds; newer files and files not matching the pattern are left
untouched, and the sweep is recorded. -/
theorem c6_cleanup_deletes_exactly_stale_charts (t : ℚ) (s : CleanupState)
    (hgate : t - s.last_cleanup > 600)
    (hnf : ∀ f ∈ s.files, f.fsFail = false) :
    (cleanup_resources t s).files =
        s.files.filter
          (fun f => !(isChartFile f.name && decide (t - f.ctime > 1800))) ∧
      (cleanup_resources t s).last_cleanup = t := by
  unfold cleanup_resources
  rw [if_pos hgate, sweep_eq_filter t s.files hnf]
  exact ⟨rfl, rfl⟩

/-- C6 witness: the theorem applied at a concrete directory holding a
stale chart, a fresh chart, a non-chart file and a wrongly-suffixed
file. -/
theorem c6_cleanup_deletes_exactly_stale_charts_witness :
    ((10000 : ℚ) - 0 > 600 ∧
      (∀ f ∈ [(⟨"chart_a1.png", 1000, false⟩ : FileInfo),
              ⟨"chart_b2.png", 9500, false⟩, ⟨"notes.txt", 100, false⟩,
              ⟨"chart_c3.txt", 100, false⟩], f.fsFail = false)) ∧
      ((cleanup_resources 10000
          ⟨0, [⟨"chart_a1.png", 1000, false⟩, ⟨"chart_b2.png", 9500, false⟩,
               ⟨"notes.txt", 100, false⟩, ⟨"chart_c3.txt", 100, false⟩]⟩).files =
        [⟨"chart_b2.png", 9500, false⟩, ⟨"notes.txt", 100, false⟩,
         ⟨"chart_c3.txt", 100, false⟩] ∧
        (cleanup_resources 10000
          ⟨0, [⟨"chart_a1.png", 1000, false⟩, ⟨"chart_b2.png", 9500, false⟩,
               ⟨"notes.txt", 100, false⟩, ⟨"chart_c3.txt", 100, false⟩]⟩).last_cleanup = 10000) := by
  refine ⟨⟨by decide, by decide⟩, ?_⟩
  have h := c6_cleanup_deletes_exactly_stale_charts 10000
    ⟨0, [⟨"chart_a1.png", 1000, false⟩, ⟨"chart_b2.png", 9500, false⟩,
         ⟨"notes.txt", 100, false⟩, ⟨"chart_c3.txt", 100, false⟩]⟩
    (by decide) (by decide)
  exact ⟨by rw [h.1]; decide, h.2⟩

/-- C7: the sweep is time-gated — a call less than 600 seconds after the
recorded last cleanup is a complete no-op (no scan, no deletion, no state
change); consequently a completed sweep at time `t` (one that records
`last_cleanup = t`) is followed by no sweep at any `t' < t + 600`. -/
theorem c7_cleanup_time_gated (t t' : ℚ) (s : CleanupState) :
    (t - s.last_cleanup < 600 → cleanup_resources t s = s) ∧
      ((cleanup_resources t s).last_cleanup = t → t' - t < 600 →
        cleanup_resources t' (cleanup_resources t s) =
          cleanup_resources t s) := by
  constructor
  · intro h
    unfold cleanup_resources
    rw [if_neg (by linarith)]
  · intro hl hgap
    generalize hgen : cleanup_resources t s = s₁ at hl ⊢
    unfold cleanup_resources
    rw [if_neg (by rw [hl]; linarith)]

/-- C7 witness: the theorem applied at a gate-closed call and at a
completed sweep followed by an early call. -/
theorem c7_cleanup_time_gated_witness :
    ((100 : ℚ) - (0 : ℚ) < 600 ∧
        cleanup_resources 100 ⟨0, []⟩ = ⟨0, []⟩) ∧
      ((cleanup_resources 1000 ⟨0, []⟩).last_cleanup = 1000 ∧
        (1500 : ℚ) - 1000 < 600 ∧
        cleanup_resources 1500 (cleanup_resources 1000 ⟨0, []⟩) =
          cleanup_resources 1000 ⟨0, []⟩) :=
  ⟨⟨by norm_num, (c7_cleanup_time_gated 100 0 ⟨0, []⟩).1 (by norm_num)⟩,
   ⟨by decide, by norm_num,
    (c7_cleanup_time_gated 1000 1500 ⟨0, []⟩).2 (by decide) (by norm_num)⟩⟩

/-- C8: if a filesystem operation raises during the sweep,
`cleanup_resources` catches it and returns normally — the partially swept
directory is kept, `last_cleanup` stays unchanged — and the triggering
health check still completes with a healthy response. -/
theorem c8_cleanup_errors_tolerated (t : ℚ) (hc : ℕ) (s : CleanupState)
    (hgate : t - s.last_cleanup > 600)
    (herr : (sweep t s.files).2 = true) :
    cleanup_resources t s =
        { last_cleanup := s.last_cleanup, files := (sweep t s.files).1 } ∧
      (health_check t hc s).1 =
        { status := "healthy", health_checks := hc + 1 } := by
  constructor
  · unfold cleanup_resources
    rw [if_pos hgate]
    simp [herr]
  · rfl

/-- C8 witness: the theorem applied at a directory whose only chart file
makes the filesystem raise. -/
theorem c8_cleanup_errors_tolerated_witness :
    ((1000 : ℚ) - 0 > 600 ∧
        (sweep 1000 [(⟨"chart_x1.png", 10, true⟩ : FileInfo)]).2 = true) ∧
      (cleanup_resources 1000 ⟨0, [⟨"chart_x1.png", 10, true⟩]⟩ =
          { last_cleanup := 0,
            files := (sweep 1000 [(⟨"chart_x1.png", 10, true⟩ : FileInfo)]).1 } ∧
        (health_check 1000 4 ⟨0, [⟨"chart_x1.png", 10, true⟩]⟩).1 =
          { status := "healthy", health_checks := 5 }) :=
  ⟨⟨by decide, by decide⟩,
   c8_cleanup_errors_tolerated 1000 4 ⟨0, [⟨"chart_x1.png", 10, true⟩]⟩
     (by decide) (by decide)⟩

end EVBMS
